import Mathlib

/-!
# Verification of the todoenbalance-backend nutrition-booking API

A shallow embedding, in Lean 4, of the parts of the Python source that the
frozen claims C1–C10 are about: the JWT security core (`app/core/security.py`),
the authentication guards (`app/core/jwt.py`), the auth endpoints
(`app/api/endpoints/auth.py`), user-creation input validation
(`app/schemas/user.py`), the admin service (`app/services/admin_service.py`),
the payment endpoints (`app/api/endpoints/payments.py`), and the appointments
router (`app/api/endpoints/appointments.py`).

Modelling conventions:
* Wall-clock instants used by JWT issuance/verification are natural numbers of
  seconds since an arbitrary epoch (`nowS`); scheduling instants are natural
  numbers of minutes since an epoch chosen so that day 0 is a Monday (`nowM`);
  the dashboard uses a calendar datetime record `CalDT`, ordered
  lexicographically exactly as SQLite orders its ISO-8601 datetime strings.
* Python `None` becomes `Option.none`; a fallible Python path becomes `Except`.
* Python resolves a global name when the statement executes.  A module that
  uses a name it never imports raises `NameError` at that point.  Where a
  claim hinges on this, the embedding keeps the explicit membership test of
  the name in the module's imported-name list, so that the live branch shows
  the intended statement and the dead branch shows the runtime outcome.
* Password hashing is an external library (passlib/bcrypt); it is modelled by
  a fixed injective tagging function, which preserves everything the claims
  use (verify succeeds exactly on the original password).
-/

/-! ## Security core: `app/core/security.py` -/

/-- Decoded JWT payload.  `create_access_token` encodes exactly
`to_encode = ("exp": expire, "sub": str(subject))`; any further claim such as
`is_admin` would have to be added by a caller, hence it is an `Option`. -/
structure JwtPayload where
  sub : String
  exp : Nat
  is_admin : Option Bool
deriving DecidableEq, Repr

/-- A signed token: the payload together with the key it was signed with
(signature verification succeeds exactly when the verifying key matches). -/
structure SignedToken where
  payload : JwtPayload
  key : String
deriving DecidableEq, Repr

/-- `create_access_token(subject, expires_delta)` from `app/core/security.py`
lines 20–42: expiry is now plus the given delta, defaulting to the configured
`ACCESS_TOKEN_EXPIRE_MINUTES`; the encoded payload holds only `exp` and
`sub = str(subject)`. -/
def create_access_token (secret : String) (subject : Nat) (nowS : Nat)
    (expiresDeltaMin : Option Nat) (accessTokenExpireMinutes : Nat) : SignedToken :=
  let expire := nowS + 60 * (expiresDeltaMin.getD accessTokenExpireMinutes)
  { payload := { sub := toString subject, exp := expire, is_admin := none },
    key := secret }

/-- Failure modes of `jose.jwt.decode`. -/
inductive JoseError where
  | invalidSignature
  | expiredSignature
deriving DecidableEq, Repr

/-- `jose.jwt.decode(token, secret, algorithms=[ALGORITHM])`: rejects a token
signed with a different key, and rejects a token whose `exp` claim is before
the current time (the library checks expiry itself, with no leeway). -/
def joseDecode (secret : String) (nowS : Nat) (t : SignedToken) :
    Except JoseError JwtPayload :=
  if t.key ≠ secret then .error .invalidSignature
  else if t.payload.exp < nowS then .error .expiredSignature
  else .ok t.payload

/-- Model of external passlib bcrypt hashing (`get_password_hash`). -/
def get_password_hash (password : String) : String :=
  "bcrypt-hash:" ++ password

/-- Model of external passlib verification (`verify_password`): succeeds
exactly on the original password, returns false otherwise, never throws. -/
def verify_password (plain : String) (hashed : String) : Bool :=
  hashed == get_password_hash plain

/-! ## Domain records: `app/models/user.py`, `app/models/admin.py` -/

/-- The `users` table row (fields used by the claims). -/
structure User where
  id : Nat
  email : String
  full_name : String
  phone : Option String
  hashed_password : Option String
  is_social_login : Bool
  social_provider : Option String
  social_id : Option String
  is_active : Bool
  is_verified : Bool
  last_login : Option Nat
deriving DecidableEq, Repr

/-- The `admins` table row.  `updated_at` is in seconds. -/
structure Admin where
  id : Nat
  email : String
  full_name : String
  hashed_password : String
  is_active : Bool
  is_superuser : Bool
  last_login : Option Nat
  updated_at : Nat
deriving DecidableEq, Repr

/-! ## Authentication guards: `app/core/jwt.py` -/

/-- The names `app/core/jwt.py` imports (its lines 3–18).  Note that `select`
is not among them: the module's lines 57 and 102 nevertheless call
`select(...)`, so Python raises `NameError` there at run time. -/
def jwtModuleImportedNames : List String :=
  ["datetime", "Optional", "Depends", "HTTPException", "status",
   "OAuth2PasswordBearer", "JWTError", "jwt", "ValidationError", "AsyncSession",
   "get_async_db", "settings", "AuthenticationException", "ALGORITHM",
   "Admin", "User", "TokenPayload"]

/-- Outcome of a request guard: the resolved principal, an
`AuthenticationException` (surfaced as HTTP 401 with the given detail), or an
unhandled Python exception (surfaced by the generic handler as HTTP 500). -/
inductive GuardOutcome (α : Type) where
  | ok (principal : α)
  | authError (detail : String)
  | unhandled (exc : String)
deriving DecidableEq, Repr

/-- `get_current_user` (`app/core/jwt.py` lines 26–64): decode and verify the
bearer token (decode, shape or signature failure, including library-side
expiry, is caught and reported as `Could not validate credentials`); an
explicit expiry re-check reports `Token expired`; then the module would look
up an active `User` by the numeric subject — but the name `select` it uses
for that query is not imported, so execution instead raises `NameError`. -/
def get_current_user (secret : String) (nowS : Nat) (users : List User)
    (t : SignedToken) : GuardOutcome User :=
  match joseDecode secret nowS t with
  | .error _ => .authError "Could not validate credentials"
  | .ok payload =>
    if payload.exp < nowS then .authError "Token expired"
    else if jwtModuleImportedNames.contains "select" then
      -- dead branch: the intended lookup of jwt.py lines 56–64
      match payload.sub.toNat? with
      | none => .unhandled "ValueError: invalid literal for int"
      | some uid =>
        match users.find? (fun u => u.id == uid && u.is_active) with
        | some u => .ok u
        | none => .authError "User not found"
    else .unhandled "NameError: name select is not defined"

/-- `get_current_admin` (`app/core/jwt.py` lines 67–109): same decode and
expiry procedure; additionally requires the raw payload to carry a truthy
`is_admin` claim (`Not an admin token` otherwise); then the admin lookup,
which hits the same missing `select` import. -/
def get_current_admin (secret : String) (nowS : Nat) (admins : List Admin)
    (t : SignedToken) : GuardOutcome Admin :=
  match joseDecode secret nowS t with
  | .error _ => .authError "Could not validate credentials"
  | .ok payload =>
    if payload.exp < nowS then .authError "Token expired"
    else if !(payload.is_admin.getD false) then .authError "Not an admin token"
    else if jwtModuleImportedNames.contains "select" then
      -- dead branch: the intended lookup of jwt.py lines 101–109
      match payload.sub.toNat? with
      | none => .unhandled "ValueError: invalid literal for int"
      | some aid =>
        match admins.find? (fun a => a.id == aid && a.is_active) with
        | some a => .ok a
        | none => .authError "Admin not found"
    else .unhandled "NameError: name select is not defined"

/-! ## Auth endpoints: `app/api/endpoints/auth.py` -/

/-- HTTP error response: status code plus detail string. -/
structure ApiError where
  status : Nat
  detail : String
deriving DecidableEq, Repr

/-- The JSON body returned by `POST /auth/login` and `POST /auth/social-login`
(schema `Token`): note that `is_admin` lives in this response body only, not
inside the signed token. -/
structure TokenResponse where
  access_token : SignedToken
  token_type : String
  user_id : Nat
  is_admin : Bool
deriving DecidableEq, Repr

/-- `login_access_token` (`auth.py` lines 23–85): try an active `User` by
email and verify the password (a user without a stored hash cannot win this
branch); on success issue an 8-day token with `is_admin: False` in the body.
Otherwise try an active `Admin`; on success issue a 1-day token with
`is_admin: True` in the body.  Otherwise 401.  In both success branches the
token itself is built by `create_access_token(id, expires_delta)`, which
encodes only `exp` and `sub`.  (The endpoint also refreshes `last_login`;
no claim depends on that side effect, so the model returns the response.) -/
def login_access_token (users : List User) (admins : List Admin)
    (secret : String) (nowS : Nat) (username password : String) :
    Except ApiError TokenResponse :=
  let userHit :=
    match users.find? (fun u => u.email == username && u.is_active) with
    | some u =>
      if (match u.hashed_password with
          | some h => verify_password password h
          | none => false) then some u else none
    | none => none
  match userHit with
  | some u =>
    .ok { access_token := create_access_token secret u.id nowS (some (60 * 24 * 8)) 11520,
          token_type := "bearer", user_id := u.id, is_admin := false }
  | none =>
    match admins.find? (fun a => a.email == username && a.is_active) with
    | some a =>
      if verify_password password a.hashed_password then
        .ok { access_token := create_access_token secret a.id nowS (some (60 * 24 * 1)) 11520,
              token_type := "bearer", user_id := a.id, is_admin := true }
      else .error { status := 401, detail := "Incorrect email or password" }
    | none => .error { status := 401, detail := "Incorrect email or password" }

/-- Python truthiness of an optional string (`not user.social_id`):
`None` and the empty string are falsy. -/
def optStrFalsy : Option String → Bool
  | none => true
  | some s => s.isEmpty

/-- The users table together with the autoincrement counter for fresh ids. -/
structure UsersDB where
  users : List User
  next_id : Nat
deriving DecidableEq, Repr

/-- Replace the first user whose id matches (the ORM mutates the single loaded
row; ids are unique in the table). -/
def replaceFirstUserById : List User → Nat → User → List User
  | [], _, _ => []
  | u :: rest, i, u' =>
    if u.id == i then u' :: rest else u :: replaceFirstUserById rest i u'

/-- `social_login` (`auth.py` lines 131–210).  The `token` argument is
accepted and never used: no verification call is made against the provider.
Lookup order: active user by `(social_provider, social_id)`, then active user
by email, then create a new verified social user.  When an existing user is
found, social fields are filled in if missing and the account is marked
verified if it was not; only then is the row written back.  Finally an 8-day
token is issued with `is_admin: False`. -/
def social_login (db : UsersDB) (secret : String) (nowS : Nat)
    (provider token email name social_id : String) :
    Except ApiError (TokenResponse × UsersDB) :=
  if !(["google", "facebook", "apple"].contains provider) then
    .error { status := 400, detail := "Invalid social provider" }
  else
    let bySocial := db.users.find? (fun u =>
      u.social_provider == some provider && u.social_id == some social_id && u.is_active)
    let found :=
      match bySocial with
      | some u => some u
      | none => db.users.find? (fun u => u.email == email && u.is_active)
    match found with
    | none =>
      let newUser : User :=
        { id := db.next_id, email := email, full_name := name, phone := none,
          hashed_password := none, is_social_login := true,
          social_provider := some provider, social_id := some social_id,
          is_active := true, is_verified := true, last_login := none }
      .ok ({ access_token := create_access_token secret newUser.id nowS (some (60 * 24 * 8)) 11520,
             token_type := "bearer", user_id := newUser.id, is_admin := false },
           { users := db.users ++ [newUser], next_id := db.next_id + 1 })
    | some u =>
      let needSocial := optStrFalsy u.social_id || optStrFalsy u.social_provider
      let u1 := if needSocial then
          { u with is_social_login := true, social_provider := some provider,
                   social_id := some social_id } else u
      let needVerify := !u1.is_verified
      let u2 := if needVerify then { u1 with is_verified := true } else u1
      let updateNeeded := needSocial || needVerify
      let u3 := if updateNeeded then { u2 with last_login := some nowS } else u2
      let db' := if updateNeeded then
          { db with users := replaceFirstUserById db.users u.id u3 } else db
      .ok ({ access_token := create_access_token secret u3.id nowS (some (60 * 24 * 8)) 11520,
             token_type := "bearer", user_id := u3.id, is_admin := false }, db')

/-! ## User creation validation: `app/schemas/user.py` (pydantic v1) -/

/-- Raw `UserCreate` request body before validation (every field may be
absent). -/
structure UserCreateInput where
  email : Option String := none
  full_name : Option String := none
  phone : Option String := none
  is_active : Option Bool := none
  password : Option String := none
  is_social_login : Option Bool := none
  social_provider : Option String := none
  social_id : Option String := none
deriving DecidableEq, Repr

/-- A validated `UserCreate`. -/
structure UserCreate where
  email : String
  full_name : String
  phone : Option String
  is_active : Bool
  password : Option String
  is_social_login : Bool
  social_provider : Option String
  social_id : Option String
deriving DecidableEq, Repr

/-- The `values` dict a pydantic v1 field validator receives: it holds only
the fields that were validated before the field under validation.  Pydantic
orders fields by first declaration: `email, full_name, phone, is_active`
come from `UserBase`, then `UserCreate` appends
`password, is_social_login, social_provider, social_id` — so `password`
precedes `is_social_login`. -/
structure PydanticValues where
  email : Option String := none
  full_name : Option String := none
  phone : Option (Option String) := none
  is_active : Option Bool := none
  password : Option (Option String) := none
  is_social_login : Option (Option Bool) := none
deriving DecidableEq, Repr

/-- `values.get(..., False)` for the social flag, with Python truthiness:
a missing key or a stored `None` both read as `False`. -/
def PydanticValues.socialFlagOrFalse (values : PydanticValues) : Bool :=
  match values.is_social_login with
  | none => false
  | some none => false
  | some (some b) => b

/-- The `@validator(..., always=True)` on `password`
(`app/schemas/user.py` lines 28–33): raise unless the social flag read from
`values` is truthy or a password value is present. -/
def password_required_if_not_social (values : PydanticValues)
    (v : Option String) : Except String (Option String) :=
  if !values.socialFlagOrFalse && v.isNone then
    .error "Password is required for non-social login users"
  else .ok v

/-- Email format check (external pydantic `EmailStr`, modelled as requiring
an at sign). -/
def isEmailLike (s : String) : Bool :=
  s.data.contains '@'

/-- Pydantic v1 validation of `UserCreate`: fields are validated in
declaration order, each validated value joining `values` before the next
field runs.  When the `password` validator executes, `is_social_login` has
not been validated yet, so `values.get` can only return its `False`
default. -/
def validateUserCreate (inp : UserCreateInput) : Except String UserCreate := do
  let email ← match inp.email with
    | none => .error "field required: email"
    | some e => if isEmailLike e then .ok e else .error "value is not a valid email address"
  let fullName ← match inp.full_name with
    | none => .error "field required: full_name"
    | some s =>
      if 1 ≤ s.length && s.length ≤ 255 then .ok s
      else .error "full_name length out of range"
  let phone := inp.phone
  -- is_active: Optional[bool] = True (an explicit null is possible in
  -- Python; it never occurs in any claim, so the default is folded in)
  let isActive := inp.is_active.getD true
  -- password: Field(None, min_length=8) — the length bound applies only
  -- when a value is present
  let pw0 : Option String ← match inp.password with
    | none => .ok none
    | some p =>
      if 8 ≤ p.length then .ok (some p)
      else .error "ensure this value has at least 8 characters"
  let valuesBeforePassword : PydanticValues :=
    { email := some email, full_name := some fullName, phone := some phone,
      is_active := some isActive }
  let password ← password_required_if_not_social valuesBeforePassword pw0
  let isSocial := inp.is_social_login.getD false
  .ok { email := email, full_name := fullName, phone := phone,
        is_active := isActive, password := password, is_social_login := isSocial,
        social_provider := inp.social_provider, social_id := inp.social_id }

/-! ## Admin service, account management:
`app/services/admin_service.py` lines 106–208 -/

/-- `AdminUpdate` partial-patch payload (`app/schemas/admin.py`): an absent
field means leave unchanged. -/
structure AdminUpdate where
  email : Option String := none
  full_name : Option String := none
  password : Option String := none
  is_active : Option Bool := none
  is_superuser : Option Bool := none
deriving DecidableEq, Repr

/-- Typed service errors raised by `AdminService` (mapped by the API layer to
HTTP 404 and 409 respectively). -/
inductive AdminSvcError where
  | notFound (detail : String)
  | conflict (detail : String)
deriving DecidableEq, Repr

/-- Number of admins that are both superusers and active — the quantity the
service counts with `select(func.count(Admin.id)).where(is_superuser ∧
is_active)`. -/
def activeSuperuserCount (admins : List Admin) : Nat :=
  (admins.filter (fun a => a.is_superuser && a.is_active)).length

/-- Field application of `update_admin` (`admin_service.py` lines 143–159):
each present field overwrites, passwords are hashed, `updated_at` is always
refreshed. -/
def applyAdminUpdate (a : Admin) (data : AdminUpdate) (nowS : Nat) : Admin :=
  { a with
    email := data.email.getD a.email,
    full_name := data.full_name.getD a.full_name,
    hashed_password := (data.password.map get_password_hash).getD a.hashed_password,
    is_active := data.is_active.getD a.is_active,
    is_superuser := data.is_superuser.getD a.is_superuser,
    updated_at := nowS }

/-- Replace the first admin whose id matches (the ORM mutates the single row
loaded by primary key). -/
def replaceFirstAdminById : List Admin → Nat → Admin → List Admin
  | [], _, _ => []
  | a :: rest, i, a' =>
    if a.id == i then a' :: rest else a :: replaceFirstAdminById rest i a'

/-- Remove the first admin whose id matches. -/
def removeFirstAdminById : List Admin → Nat → List Admin
  | [], _ => []
  | a :: rest, i => if a.id == i then rest else a :: removeFirstAdminById rest i

/-- `AdminService.update_admin` (`admin_service.py` lines 106–166): 404 if the
target id is absent; if the target is a superuser and the payload sets
`is_superuser` to exactly `False`, count the active superusers first and
reject with Conflict when that count is at most one; otherwise apply the
present fields and persist.  No other guard exists — in particular a payload
that only sets `is_active = False` is applied unconditionally. -/
def update_admin (admins : List Admin) (admin_id : Nat) (data : AdminUpdate)
    (current_admin_id : Nat) (nowS : Nat) : Except AdminSvcError (List Admin) :=
  match admins.find? (fun a => a.id == admin_id) with
  | none => .error (.notFound "Admin not found")
  | some a =>
    if a.is_superuser && data.is_superuser == some false then
      if activeSuperuserCount admins ≤ 1 then
        .error (.conflict "Cannot remove superuser status from the last superuser")
      else .ok (replaceFirstAdminById admins admin_id (applyAdminUpdate a data nowS))
    else .ok (replaceFirstAdminById admins admin_id (applyAdminUpdate a data nowS))

/-- `AdminService.delete_admin` (`admin_service.py` lines 168–208): 404 if
absent; Conflict on self-delete; if the target is a superuser (active or
not), count the active superusers and reject with Conflict when the count is
at most one; otherwise delete the row. -/
def delete_admin (admins : List Admin) (admin_id : Nat)
    (current_admin_id : Nat) : Except AdminSvcError (List Admin) :=
  match admins.find? (fun a => a.id == admin_id) with
  | none => .error (.notFound "Admin not found")
  | some a =>
    if admin_id == current_admin_id then
      .error (.conflict "Cannot delete your own admin account")
    else if a.is_superuser then
      if activeSuperuserCount admins ≤ 1 then
        .error (.conflict "Cannot delete the last superuser")
      else .ok (removeFirstAdminById admins admin_id)
    else .ok (removeFirstAdminById admins admin_id)

/-- One admin-management operation, as invoked through the API. -/
inductive AdminOp where
  | update (admin_id : Nat) (data : AdminUpdate) (current_admin_id : Nat) (nowS : Nat)
  | delete (admin_id : Nat) (current_admin_id : Nat)
deriving Repr

/-- Run one operation; a rejected operation (the service raises before any
mutation) leaves the table unchanged. -/
def applyAdminOp (admins : List Admin) : AdminOp → List Admin
  | .update i data cur nowS =>
    match update_admin admins i data cur nowS with
    | .ok admins' => admins'
    | .error _ => admins
  | .delete i cur =>
    match delete_admin admins i cur with
    | .ok admins' => admins'
    | .error _ => admins

/-- Run a sequence of operations in order. -/
def runAdminOps (admins : List Admin) (ops : List AdminOp) : List Admin :=
  ops.foldl applyAdminOp admins

/-- An operation that never deactivates an account: its update payload does
not set `is_active` to `False`.  (Deletions carry no such payload.) -/
def opKeepsActivity : AdminOp → Prop
  | .update _ data _ _ => data.is_active ≠ some false
  | .delete _ _ => True

instance : DecidablePred opKeepsActivity := fun op => by
  cases op with
  | update i data cur nowS => exact inferInstanceAs (Decidable (data.is_active ≠ some false))
  | delete i cur => exact inferInstanceAs (Decidable True)

/-! ## Admin service, recurring slot expansion:
`app/services/admin_service.py` lines 312–421

Scheduling instants are minutes since an epoch whose day 0 is a Monday, so
`isoweekday` is day-number mod 7 plus one.  A `date` value is a day number;
`datetime.combine(d, timeOfDay)` is `1440 * d + timeOfDay`. -/

/-- ISO day of week (1 = Monday … 7 = Sunday) of a minute instant. -/
def isoweekdayOfMinutes (m : Nat) : Nat :=
  m / 1440 % 7 + 1

/-- The day number (`datetime.date()`) of a minute instant. -/
def dayOfMinutes (m : Nat) : Nat :=
  m / 1440

/-- `replace(hour=0, minute=0, second=0, microsecond=0)`. -/
def midnightOfMinutes (m : Nat) : Nat :=
  1440 * (m / 1440)

/-- A `recurring_timeslots` row: `day_of_week` 1–7, times of day in minutes,
validity bounds as day numbers. -/
structure RecurringTimeSlot where
  day_of_week : Nat
  start_time : Nat
  end_time : Nat
  duration : Nat
  valid_from : Nat
  valid_until : Option Nat
  is_active : Bool
deriving DecidableEq, Repr

/-- A `timeslots` row (times in minutes since the epoch). -/
structure TimeSlot where
  start_time : Nat
  end_time : Nat
  duration : Nat
  is_available : Bool
  is_booked : Bool
deriving DecidableEq, Repr

/-- A `blocked_timeslots` row. -/
structure BlockedTimeSlot where
  start_datetime : Nat
  end_datetime : Nat
  reason : Option String
deriving DecidableEq, Repr

/-- The tables `generate_time_slots_from_recurring` reads. -/
structure SchedulingState where
  timeslots : List TimeSlot
  recurring : List RecurringTimeSlot
  blocked : List BlockedTimeSlot
deriving DecidableEq, Repr

/-- The blocking condition of lines 387–394: some `blocked_timeslots` row
fully contains the candidate interval (`start_datetime ≤ candidate start`
and `end_datetime ≥ candidate end`).  (In the committed method this query is
dead code — see `generate_time_slots_from_recurring` — but the condition as
written is exactly full containment.) -/
def blockedContains (blocks : List BlockedTimeSlot) (s e : Nat) : Bool :=
  blocks.any (fun b => b.start_datetime ≤ s && e ≤ b.end_datetime)

/-- The initial query of lines 326–337: active patterns whose `valid_from`
is on or before the range end and whose `valid_until` is absent or on or
after the range start (date-level comparison, performed by the database). -/
def loadActiveRecurring (patterns : List RecurringTimeSlot)
    (startDate endDate : Nat) : List RecurringTimeSlot :=
  patterns.filter (fun r =>
    r.is_active && r.valid_from ≤ dayOfMinutes endDate &&
    (match r.valid_until with
     | none => true
     | some vu => dayOfMinutes startDate ≤ vu))

/-- The midnights visited by the day loop of lines 340–412: from midnight of
`startDate`, stepping one day, while on or before `endDate`. -/
def dayLoopStarts (startDate endDate : Nat) : List Nat :=
  let base := midnightOfMinutes startDate
  if endDate < base then []
  else (List.range ((endDate - base) / 1440 + 1)).map (fun i => base + 1440 * i)

/-- An unhandled Python error terminating a service call. -/
inductive PyRunError where
  | nameError (missing : String)
  | typeError (msg : String)
deriving DecidableEq, Repr

/-- The day loop of lines 343–412 as it would execute: for each day in
order, the inner `for` scans the loaded patterns, and the first pattern
whose `day_of_week` equals the day's ISO weekday reaches line 351 — `if
current_date < recurring_slot.valid_from:` — which orders `current_date`,
a `datetime`, against the `valid_from` `Date` column value, a
`datetime.date`.  Python refuses to order the two and raises `TypeError`
(whose message says it cannot compare datetime.datetime to datetime.date;
the model spells the message without the apostrophe).  A day matched by no loaded pattern is
skipped harmlessly, so a run in which no pattern ever matches finishes the
loop with `created_slots` empty and returns the empty list.  Everything
below line 351 — the past-skip, the slot walk named in the claims, the
existence and blocking queries, the inserts — is unreachable. -/
def dayLoopRun (patterns : List RecurringTimeSlot) :
    List Nat → Except PyRunError (List TimeSlot)
  | [] => .ok []
  | d :: rest =>
    if patterns.any (fun r => r.day_of_week == isoweekdayOfMinutes d) then
      .error (.typeError "cannot compare datetime.datetime to datetime.date")
    else dayLoopRun patterns rest

/-- Lines 326–421 with the line-330 `NameError` set aside (the name `or_`
resolved): load the matching patterns, then run the day loop — which itself
fails with the line-351 `TypeError` on the first day any loaded pattern
matches.  (The current clock, read only by the unreachable line 367, does
not influence the result and is not a parameter.) -/
def generateTimeSlotsBodyResolved (st : SchedulingState)
    (startDate endDate : Nat) : Except PyRunError (List TimeSlot) :=
  dayLoopRun (loadActiveRecurring st.recurring startDate endDate)
    (dayLoopStarts startDate endDate)

/-- The names `app/services/admin_service.py` imports from sqlalchemy
(its line 8).  `or_` is not among them, yet line 330 applies `or_`. -/
def adminServiceSqlalchemyImports : List String :=
  ["and_", "func", "select"]

/-- `AdminService.generate_time_slots_from_recurring` as committed: building
the very first query (line 330) applies `or_`, a name the module never
imports, so the call raises `NameError` before reading or writing anything;
with that name resolved it would run `generateTimeSlotsBodyResolved` (and
fail with the line-351 `TypeError` instead on any day a loaded pattern
matches).  `nowM` is the clock the method would read at line 367; it is
never reached. -/
def generate_time_slots_from_recurring (st : SchedulingState)
    (nowM startDate endDate : Nat) : Except PyRunError (List TimeSlot) :=
  if adminServiceSqlalchemyImports.contains "or_" then
    generateTimeSlotsBodyResolved st startDate endDate
  else .error (.nameError "or_")

/-! ## Calendar datetimes (for the dashboard and payment timestamps)

SQLite stores `DateTime` columns as ISO-8601 strings and compares them
lexicographically, which coincides with the lexicographic order on
(year, month, day, minute-of-day). -/

/-- A calendar datetime: year, month (1–12), day (from 1), minute of day. -/
structure CalDT where
  year : Nat
  month : Nat
  day : Nat
  minute : Nat
deriving DecidableEq, Repr

/-- Lexicographic strict order on calendar datetimes. -/
def CalDT.ltB (a b : CalDT) : Bool :=
  a.year < b.year ||
  (a.year == b.year && (a.month < b.month ||
    (a.month == b.month && (a.day < b.day ||
      (a.day == b.day && a.minute < b.minute)))))

/-- Lexicographic order on calendar datetimes. -/
def CalDT.leB (a b : CalDT) : Bool :=
  a.ltB b || a == b

/-- A datetime with a plausible calendar reading: month in 1–12, day at
least 1.  (Day upper bounds are irrelevant to the claims.) -/
def CalDT.wellFormed (t : CalDT) : Prop :=
  1 ≤ t.month ∧ t.month ≤ 12 ∧ 1 ≤ t.day

instance : DecidablePred CalDT.wellFormed := fun t =>
  inferInstanceAs (Decidable (1 ≤ t.month ∧ t.month ≤ 12 ∧ 1 ≤ t.day))

/-! ## Payments: `app/models/payment.py`, `app/api/endpoints/payments.py` -/

/-- `PaymentStatus` enumeration. -/
inductive PaymentStatus where
  | pending
  | completed
  | failed
  | refunded
  | cancelled
deriving DecidableEq, Repr

/-- `PaymentProvider` enumeration. -/
inductive PaymentProvider where
  | stripe
  | paypal
deriving DecidableEq, Repr

/-- A `payments` table row (fields the claims touch; amounts are exact
rationals standing for the stored floats). -/
structure Payment where
  id : Nat
  user_id : Nat
  appointment_id : Nat
  amount : ℚ
  currency : String
  provider : PaymentProvider
  provider_payment_id : Option String
  provider_transaction_id : Option String
  status : PaymentStatus
  error_message : Option String
  completed_at : Option CalDT
  refunded_at : Option CalDT
deriving DecidableEq, Repr

/-- The caller resolved by the request guards for the payment endpoints:
`is_admin` mirrors the endpoint's `hasattr(current_user, "is_superuser")`
test. -/
structure Actor where
  user_id : Nat
  is_admin : Bool
deriving DecidableEq, Repr

/-- Replace the first payment whose id matches (the ORM mutates the single
loaded row). -/
def replaceFirstPaymentById : List Payment → Nat → Payment → List Payment
  | [], _, _ => []
  | p :: rest, i, p' =>
    if p.id == i then p' :: rest else p :: replaceFirstPaymentById rest i p'

/-- The names `app/api/endpoints/payments.py` imports (its lines 3–24).
`datetime` is not among them, yet line 461 evaluates `datetime.utcnow()`. -/
def paymentsModuleImportedNames : List String :=
  ["Any", "List", "Optional", "APIRouter", "BackgroundTasks", "Depends",
   "HTTPException", "Query", "status", "and_", "select", "AsyncSession",
   "get_async_db", "get_pagination_params", "get_current_admin",
   "get_current_user", "Appointment", "Payment", "PaymentProvider",
   "PaymentStatus", "User", "PaymentCreate", "PaymentIntentCreate",
   "PaymentIntentResponse", "PaymentOut", "PaymentUpdate",
   "AppointmentService", "EmailService", "PayPalPaymentService",
   "StripePaymentService"]

/-- `cancel_payment` (`payments.py` lines 325–402).  404 if absent; 403 if
the caller is neither an admin nor the owner; 409 — raised before any
mutation — unless the status is pending.  Then, inside `try`: with a
provider payment id, the provider is asked to cancel and its result is
applied to the row (`provCancelUpdate`, modelled from the spec §4.11
`cancel_payment` + `update_payment_model` contract: it maps the row to its
post-cancellation value or fails with a message); without one the row is
just marked cancelled locally.  The row is committed, the appointment is
synced (spec §4.9: that sync never writes `payments`), and the row is
returned; any exception inside `try` surfaces as HTTP 500 with nothing
committed. -/
def cancel_payment (payments : List Payment) (payment_id : Nat) (actor : Actor)
    (provCancelUpdate : Payment → Except String Payment) :
    Except ApiError (Payment × List Payment) :=
  match payments.find? (fun p => p.id == payment_id) with
  | none => .error { status := 404, detail := "Payment not found" }
  | some p =>
    if !actor.is_admin && p.user_id != actor.user_id then
      .error { status := 403, detail := "Access denied" }
    else if p.status != .pending then
      .error { status := 409, detail := "Cannot cancel payment with the current status" }
    else
      let tryBlock : Except String Payment :=
        match p.provider_payment_id with
        | some _ => provCancelUpdate p
        | none => .ok { p with status := .cancelled }
      match tryBlock with
      | .ok p' => .ok (p', replaceFirstPaymentById payments p.id p')
      | .error msg =>
        .error { status := 500, detail := "Failed to cancel payment: " ++ msg }

/-- `refund_payment` (`payments.py` lines 405–483), reached through the
admin guard.  404 if absent; 409 — raised before any mutation — unless the
status is completed.  Inside `try`: a 400 is raised (and then swallowed by
the blanket `except`, resurfacing as 500) when neither provider id exists;
the provider refund (`providerRefund`, modelled from the spec §4.11 refund
contract: absent amount means full refund) is invoked with the transaction
id falling back to the payment id; the row's status is set to refunded in
memory; then line 461 evaluates `datetime.utcnow()` — but `datetime` is not
imported in this module, so a `NameError` is raised, the blanket `except`
turns it into HTTP 500, and the commit on line 465 is never reached: the
stored row keeps its previous state. -/
def refund_payment (payments : List Payment) (payment_id : Nat)
    (amount : Option ℚ) (nowDT : CalDT)
    (providerRefund : String → Option ℚ → Except String Unit) :
    Except ApiError (Payment × List Payment) :=
  match payments.find? (fun p => p.id == payment_id) with
  | none => .error { status := 404, detail := "Payment not found" }
  | some p =>
    if p.status != .completed then
      .error { status := 409, detail := "Cannot refund payment with the current status" }
    else
      let tryBlock : Except String (Payment × List Payment) :=
        match (match p.provider_transaction_id with
               | some tid => some tid
               | none => p.provider_payment_id) with
        | none => .error "No provider transaction ID available for refund"
        | some refundId =>
          match providerRefund refundId amount with
          | .error e => .error e
          | .ok _ =>
            -- line 460 sets payment.status to refunded in memory; the next
            -- line needs the unimported name datetime
            if paymentsModuleImportedNames.contains "datetime" then
              -- dead branch: the intended lines 461–466
              .ok ({ p with status := PaymentStatus.refunded, refunded_at := some nowDT },
                   replaceFirstPaymentById payments p.id
                     { p with status := PaymentStatus.refunded, refunded_at := some nowDT })
            else .error "NameError: name datetime is not defined"
      match tryBlock with
      | .ok x => .ok x
      | .error msg =>
        .error { status := 500, detail := "Failed to refund payment: " ++ msg }

/-! ## Dashboard revenue: `app/services/admin_service.py` lines 425–523 -/

/-- `replace(hour=0, minute=0, second=0, microsecond=0)` on a calendar
datetime. -/
def CalDT.midnight (t : CalDT) : CalDT :=
  { t with minute := 0 }

/-- `today.replace(day=1)`. -/
def monthStartOf (today : CalDT) : CalDT :=
  { today with day := 1 }

/-- Lines 438–441: the first instant of the following month, rolling
December over to January of the next year. -/
def nextMonthStart (monthStart : CalDT) : CalDT :=
  if monthStart.month < 12 then { monthStart with month := monthStart.month + 1 }
  else { monthStart with month := 1, year := monthStart.year + 1 }

/-- SQL `SUM(amount)`: `NULL` (here `none`) over an empty selection. -/
def sqlSumAgg : List ℚ → Option ℚ
  | [] => none
  | xs => some xs.sum

/-- Lines 432–441 and 492–501: monthly revenue as the dashboard computes it —
sum the amounts of payments that are completed and whose `completed_at` lies
in `[month_start, next_month)` (a SQL comparison, so rows with a `NULL`
`completed_at` never qualify), then coerce a `NULL` sum to `0`
(`scalar_one() or 0`). -/
def dashboardMonthlyRevenue (payments : List Payment) (now : CalDT) : ℚ :=
  let today := now.midnight
  let monthStart := monthStartOf today
  let nextMonth := nextMonthStart monthStart
  (sqlSumAgg ((payments.filter (fun p =>
    p.status == PaymentStatus.completed &&
    (match p.completed_at with
     | some t => monthStart.leB t && t.ltB nextMonth
     | none => false))).map Payment.amount)).getD 0

/-- Is `p` a completed payment whose completion timestamp falls in the
calendar month of `now`?  (The spec's wording of the dashboard's
selection.) -/
def completedInMonthOf (now : CalDT) (p : Payment) : Bool :=
  p.status == PaymentStatus.completed &&
  (match p.completed_at with
   | some t => t.year == now.year && t.month == now.month
   | none => false)

/-- The spec's wording of the revenue figure, for comparison: the sum of
amounts of completed payments whose completion timestamp falls in the
current calendar month (zero if none). -/
def specMonthlyRevenue (payments : List Payment) (now : CalDT) : ℚ :=
  ((payments.filter (completedInMonthOf now)).map Payment.amount).sum

/-! ## The appointments router: `app/api/endpoints/appointments.py` -/

/-- One segment of a route path: a literal or a path parameter (Starlette
matches a parameter against any single segment; type conversion happens
later, inside the endpoint). -/
inductive Seg where
  | lit (s : String)
  | param (name : String)
deriving DecidableEq, Repr

/-- A registered route. -/
structure Route where
  method : String
  pattern : List Seg
  handler : String
deriving DecidableEq, Repr

/-- The appointments router's routes in registration order — the order the
handlers appear in `appointments.py`.  `GET /available` (line 263) is
registered after `GET /(appointment_id)` (line 132). -/
def appointmentsRouterRoutes : List Route :=
  [{ method := "GET", pattern := [], handler := "read_appointments" },
   { method := "POST", pattern := [], handler := "create_appointment" },
   { method := "GET", pattern := [.lit "me"], handler := "read_my_appointments" },
   { method := "GET", pattern := [.param "appointment_id"], handler := "read_appointment" },
   { method := "PUT", pattern := [.param "appointment_id"], handler := "update_appointment" },
   { method := "POST", pattern := [.param "appointment_id", .lit "cancel"],
     handler := "cancel_appointment" },
   { method := "GET", pattern := [.lit "available"], handler := "get_available_slots" }]

/-- Does a segment pattern accept a concrete segment? -/
def segMatches : Seg → String → Bool
  | .lit s, x => s == x
  | .param _, _ => true

/-- Does a route pattern accept a concrete path? -/
def pathMatches (pattern : List Seg) (path : List String) : Bool :=
  pattern.length == path.length &&
  (pattern.zip path).all (fun sx => segMatches sx.1 sx.2)

/-- Starlette routing: the first registered route whose method and pattern
match wins. -/
def matchRoute (routes : List Route) (method : String) (path : List String) :
    Option Route :=
  routes.find? (fun r => r.method == method && pathMatches r.pattern path)

/-- The request-scoped validation of `get_available_slots`
(`appointments.py` lines 273–285): 400 when the end precedes the start, 400
when `(end_date - start_date).days` — whole days, floor — exceeds 30. -/
def availableRangeCheck (startM endM : Nat) : Option ApiError :=
  if endM < startM then
    some { status := 400, detail := "End date must be after start date" }
  else if (endM - startM) / 1440 > 30 then
    some { status := 400, detail := "Date range cannot exceed 30 days" }
  else none

/-- Outcome of dispatching a request against the router. -/
inductive DispatchOutcome where
  | response (status : Nat) (detail : String)
  | reached (handler : String)
deriving DecidableEq, Repr

/-- Dispatch of a GET request on the appointments router.  When the winner
is `read_appointment`, FastAPI first resolves its dependencies — the bearer
scheme rejects a missing Authorization header with 401, and
`get_current_user` runs on the presented token — and only then validates the
`appointment_id: int` path parameter (422 when the segment is not an
integer).  Other handlers are reported as reached. -/
def appointmentsGETDispatch (users : List User) (secret : String) (nowS : Nat)
    (path : List String) (bearer : Option SignedToken) : DispatchOutcome :=
  match matchRoute appointmentsRouterRoutes "GET" path with
  | none => .response 404 "Not Found"
  | some r =>
    if r.handler == "read_appointment" then
      match bearer with
      | none => .response 401 "Not authenticated"
      | some t =>
        match get_current_user secret nowS users t with
        | .authError d => .response 401 d
        | .unhandled exc => .response 500 exc
        | .ok _ =>
          match path with
          | [seg] =>
            match seg.toNat? with
            | none => .response 422 "value is not a valid integer"
            | some _ => .reached "read_appointment"
          | _ => .reached "read_appointment"
    else .reached r.handler

/-- Decidable equality for `Except`, used to evaluate the embedded
functions on concrete inputs. -/
instance {ε α : Type _} [DecidableEq ε] [DecidableEq α] : DecidableEq (Except ε α) := fun x y =>
  match x, y with
  | .ok a, .ok b =>
    if h : a = b then .isTrue (by rw [h]) else .isFalse (by intro he; cases he; exact h rfl)
  | .error e, .error f =>
    if h : e = f then .isTrue (by rw [h]) else .isFalse (by intro he; cases he; exact h rfl)
  | .ok _, .error _ => .isFalse (by intro h; cases h)
  | .error _, .ok _ => .isFalse (by intro h; cases h)

/-! ## Concrete fixtures used by the theorems -/

/-- An existing, active user with id 7. -/
def c1User : User :=
  { id := 7, email := "user@example.com", full_name := "Test User", phone := none,
    hashed_password := some (get_password_hash "password"), is_social_login := false,
    social_provider := none, social_id := none, is_active := true,
    is_verified := true, last_login := none }

/-- The users table holding `c1User`. -/
def c1Users : List User := [c1User]

/-- A token for `c1User` issued by `create_access_token` itself with the
configured secret at time 1000 with a 60-minute lifetime. -/
def c1Token : SignedToken :=
  create_access_token "configured-secret" c1User.id 1000 (some 60) 11520

/-- An active superuser admin whose stored hash matches the password
`password`. -/
def c2Admin : Admin :=
  { id := 3, email := "admin@example.com", full_name := "Admin",
    hashed_password := get_password_hash "password", is_active := true,
    is_superuser := true, last_login := none, updated_at := 0 }

/-- The login call for `c2Admin` with correct credentials. -/
def c2LoginResult : Except ApiError TokenResponse :=
  login_access_token [] [c2Admin] "configured-secret" 5000 "admin@example.com" "password"

/-- The login call for the ordinary user `c1User` with correct
credentials. -/
def c2UserLoginResult : Except ApiError TokenResponse :=
  login_access_token [c1User] [c2Admin] "configured-secret" 5000 "user@example.com" "password"

/-- A social-login registration payload carrying no password. -/
def c3SocialInput : UserCreateInput :=
  { email := some "social@example.com", full_name := some "Social User",
    is_social_login := some true, social_provider := some "google",
    social_id := some "gid-1" }

/-- Superuser-and-active contribution of a single admin to
`activeSuperuserCount`. -/
def superuserWeight (a : Admin) : Nat :=
  if a.is_superuser && a.is_active then 1 else 0

/-- The sole admin of the C4 counterexample: an active superuser. -/
def c4SoleSuperuser : Admin :=
  { id := 1, email := "root@example.com", full_name := "Root",
    hashed_password := get_password_hash "rootpassword", is_active := true,
    is_superuser := true, last_login := none, updated_at := 0 }

/-- An update payload that only deactivates the account. -/
def c4Deactivate : AdminUpdate :=
  { is_active := some false }

/-- A second, non-superuser admin. -/
def c4Regular : Admin :=
  { id := 2, email := "staff@example.com", full_name := "Staff",
    hashed_password := get_password_hash "staffpassword", is_active := true,
    is_superuser := false, last_login := none, updated_at := 0 }

/-- Start state for the C4 witness: one active superuser, one regular
admin. -/
def c4StartAdmins : List Admin :=
  [c4SoleSuperuser, c4Regular]

/-- Witness operations: delete the regular admin, then attempt to demote the
last superuser (which the service rejects with Conflict). -/
def c4WitnessOps : List AdminOp :=
  [.delete 2 1, .update 1 { is_superuser := some false } 1 50]

/-- The state after a service call whose rejection leaves the previous
state in place. -/
def exceptStateOr (r : Except AdminSvcError (List Admin)) (l : List Admin) : List Admin :=
  match r with
  | .ok l' => l'
  | .error _ => l

/-- The C5 recurring pattern: Monday 09:00 to 10:00, 30-minute slots,
valid from day 0 indefinitely. -/
def c5Pattern : RecurringTimeSlot :=
  { day_of_week := 1, start_time := 540, end_time := 600, duration := 30,
    valid_from := 0, valid_until := none, is_active := true }

/-- The C5 state: only the Monday pattern, no slots, no blocks. -/
def c5State : SchedulingState :=
  { timeslots := [], recurring := [c5Pattern], blocked := [] }

/-- The C6 pattern: Monday 09:00 to 10:00 in one 60-minute slot. -/
def c6Pattern : RecurringTimeSlot :=
  { day_of_week := 1, start_time := 540, end_time := 600, duration := 60,
    valid_from := 0, valid_until := none, is_active := true }

/-- A block covering Monday 08:30 to 09:30 of day 7 — it overlaps the
candidate 09:00 to 10:00 slot only partially. -/
def c6PartialBlock : BlockedTimeSlot :=
  { start_datetime := 10590, end_datetime := 10650, reason := some "partial" }

/-- The C6 counterexample state: one pattern, one partially overlapping
block. -/
def c6State : SchedulingState :=
  { timeslots := [], recurring := [c6Pattern], blocked := [c6PartialBlock] }

/-- A pending stripe payment. -/
def c7Pending : Payment :=
  { id := 1, user_id := 9, appointment_id := 4, amount := 50, currency := "EUR",
    provider := .stripe, provider_payment_id := some "pi-1",
    provider_transaction_id := none, status := .pending, error_message := none,
    completed_at := none, refunded_at := none }

/-- A completed stripe payment carrying a provider transaction id. -/
def c7Completed : Payment :=
  { id := 2, user_id := 9, appointment_id := 5, amount := 100, currency := "EUR",
    provider := .stripe, provider_payment_id := some "pi-2",
    provider_transaction_id := some "tx-2", status := .completed,
    error_message := none,
    completed_at := some { year := 2026, month := 10, day := 1, minute := 600 },
    refunded_at := none }

/-- A provider cancel adapter that succeeds without changing the row
(modelled from the spec, for witness instantiation). -/
def c7ProvCancelUpdate : Payment → Except String Payment :=
  fun p => .ok { p with status := .cancelled }

/-- A provider refund adapter that always succeeds (modelled from the spec,
for witness instantiation). -/
def c7ProvRefund : String → Option ℚ → Except String Unit :=
  fun _ _ => .ok ()

/-- A current instant for the refund endpoint. -/
def c7Now : CalDT :=
  { year := 2026, month := 10, day := 12, minute := 720 }

/-- The stored completion timestamp, when present, is a plausible calendar
datetime. -/
def completedAtWellFormed (p : Payment) : Prop :=
  match p.completed_at with
  | some t => t.wellFormed
  | none => True

instance : DecidablePred completedAtWellFormed := fun p => by
  unfold completedAtWellFormed
  cases p.completed_at with
  | none => exact inferInstanceAs (Decidable True)
  | some t => exact inferInstanceAs (Decidable t.wellFormed)

/-- An active social user: google account `sid-1`, already verified. -/
def c10UserA : User :=
  { id := 1, email := "alice@example.com", full_name := "Alice", phone := none,
    hashed_password := none, is_social_login := true,
    social_provider := some "google", social_id := some "sid-1",
    is_active := true, is_verified := true, last_login := none }

/-- An active password user, not yet verified, with no social identity. -/
def c10UserB : User :=
  { id := 2, email := "bob@example.com", full_name := "Bob", phone := none,
    hashed_password := some (get_password_hash "bobpassword"),
    is_social_login := false, social_provider := none, social_id := none,
    is_active := true, is_verified := false, last_login := none }

/-- The users table for the C10 counterexample. -/
def c10Db : UsersDB :=
  { users := [c10UserA, c10UserB], next_id := 3 }

/-! ## C1 -/

/-- C1: the claim says a request bearing a token signed with the configured
secret, unexpired, whose subject is the id of an existing active user, makes
`get_current_user` return that user, and that every other token fails with an
Authentication error, never an unhandled one.  At exactly such a good token
the guard instead raises an unhandled `NameError`, because
`app/core/jwt.py` uses `select` without importing it. -/
theorem current_user_guard_valid_token_crashes :
    c1Token.key = "configured-secret" ∧
    1000 < c1Token.payload.exp ∧
    c1Token.payload.sub = toString c1User.id ∧
    c1User.is_active = true ∧
    c1User ∈ c1Users ∧
    get_current_user "configured-secret" 1000 c1Users c1Token =
      .unhandled "NameError: name select is not defined" := by
  decide

/-! ## C2 -/

/-- C2: the claim says the token issued by `POST /auth/login` for an admin
with correct credentials carries `is_admin = true` in its JWT payload and
therefore passes `get_current_admin`.  The login succeeds and sets
`is_admin: true` in the response body, but the signed payload carries no
`is_admin` claim at all (`create_access_token` encodes only `exp` and
`sub`), so presenting the very token the login returned to the admin guard
fails with `Not an admin token` instead of resolving the admin. -/
theorem admin_login_token_fails_admin_guard :
    (c2LoginResult.toOption.map (fun r => r.is_admin)) = some true ∧
    (c2LoginResult.toOption.map (fun r => r.user_id)) = some c2Admin.id ∧
    (c2LoginResult.toOption.map (fun r => r.access_token.payload.is_admin)) =
      some none ∧
    (c2LoginResult.toOption.map (fun r =>
      get_current_admin "configured-secret" 5000 [c2Admin] r.access_token)) =
      some (.authError "Not an admin token") ∧
    (c2UserLoginResult.toOption.map (fun r => r.access_token.payload.is_admin)) =
      some none ∧
    (c2UserLoginResult.toOption.map (fun r =>
      get_current_admin "configured-secret" 5000 [c2Admin] r.access_token)) =
      some (.authError "Not an admin token") := by
  decide

/-! ## C3 -/

/-- C3: the claim says a `UserCreate` payload with `is_social_login = true`
is accepted without a password.  Because pydantic validates fields in
declaration order and `password` is declared before `is_social_login`, the
password validator always reads the flag's default `False`, so such a
payload is rejected.  The claim's second half — no social flag means a
password of at least 8 characters is required — does hold. -/
theorem user_create_social_without_password_rejected :
    validateUserCreate c3SocialInput =
      .error "Password is required for non-social login users" ∧
    validateUserCreate { c3SocialInput with is_social_login := none } =
      .error "Password is required for non-social login users" ∧
    validateUserCreate
        { c3SocialInput with is_social_login := some false, password := some "short" } =
      .error "ensure this value has at least 8 characters" ∧
    validateUserCreate
        { c3SocialInput with is_social_login := some false, password := some "longenough" } =
      .ok { email := "social@example.com", full_name := "Social User",
            phone := none, is_active := true, password := some "longenough",
            is_social_login := false, social_provider := some "google",
            social_id := some "gid-1" } := by
  decide

/-! ## C4 -/

theorem activeSuperuserCount_cons (a : Admin) (l : List Admin) :
    activeSuperuserCount (a :: l) = superuserWeight a + activeSuperuserCount l := by
  simp only [activeSuperuserCount, superuserWeight, List.filter_cons]
  by_cases h : (a.is_superuser && a.is_active) = true
  · rw [if_pos h, if_pos h, List.length_cons]
    omega
  · rw [if_neg h, if_neg h]
    omega

theorem superuserWeight_le_one (a : Admin) : superuserWeight a ≤ 1 := by
  simp only [superuserWeight]
  split <;> omega

theorem replaceFirstAdminById_count (l : List Admin) (i : Nat) (a a' : Admin)
    (h : l.find? (fun x => x.id == i) = some a) :
    activeSuperuserCount (replaceFirstAdminById l i a') + superuserWeight a =
      activeSuperuserCount l + superuserWeight a' := by
  induction l with
  | nil => simp [List.find?] at h
  | cons b t ih =>
    cases hb : b.id == i with
    | true =>
      have hba : b = a := by
        simp only [List.find?, hb] at h
        exact Option.some.inj h
      subst hba
      simp only [replaceFirstAdminById]
      rw [if_pos hb, activeSuperuserCount_cons, activeSuperuserCount_cons]
      omega
    | false =>
      have ht : t.find? (fun x => x.id == i) = some a := by
        simp only [List.find?, hb] at h
        exact h
      have hb' : ¬((b.id == i) = true) := by simp [hb]
      simp only [replaceFirstAdminById]
      rw [if_neg hb', activeSuperuserCount_cons, activeSuperuserCount_cons]
      have := ih ht
      omega

theorem removeFirstAdminById_count (l : List Admin) (i : Nat) (a : Admin)
    (h : l.find? (fun x => x.id == i) = some a) :
    activeSuperuserCount (removeFirstAdminById l i) + superuserWeight a =
      activeSuperuserCount l := by
  induction l with
  | nil => simp [List.find?] at h
  | cons b t ih =>
    cases hb : b.id == i with
    | true =>
      have hba : b = a := by
        simp only [List.find?, hb] at h
        exact Option.some.inj h
      subst hba
      simp only [removeFirstAdminById]
      rw [if_pos hb, activeSuperuserCount_cons]
      omega
    | false =>
      have ht : t.find? (fun x => x.id == i) = some a := by
        simp only [List.find?, hb] at h
        exact h
      have hb' : ¬((b.id == i) = true) := by simp [hb]
      simp only [removeFirstAdminById]
      rw [if_neg hb', activeSuperuserCount_cons, activeSuperuserCount_cons]
      have := ih ht
      omega

theorem applyAdminUpdate_weight_ge (a : Admin) (data : AdminUpdate) (nowS : Nat)
    (hdata : data.is_active ≠ some false)
    (hguard : ¬((a.is_superuser && data.is_superuser == some false) = true)) :
    superuserWeight a ≤ superuserWeight (applyAdminUpdate a data nowS) := by
  simp only [superuserWeight, applyAdminUpdate]
  by_cases hsup : (a.is_superuser && a.is_active) = true
  · have hsup1 : a.is_superuser = true := by
      cases h1 : a.is_superuser <;> simp [h1] at hsup ⊢
    have hact1 : a.is_active = true := by
      cases h1 : a.is_active <;> simp [h1] at hsup ⊢
    have hsup' : data.is_superuser.getD a.is_superuser = true := by
      cases hds : data.is_superuser with
      | none => simpa [hds] using hsup1
      | some b =>
        cases b with
        | true => simp [hds]
        | false => simp [hsup1, hds] at hguard
    have hact' : data.is_active.getD a.is_active = true := by
      cases hda : data.is_active with
      | none => simpa [hda] using hact1
      | some b =>
        cases b with
        | true => simp [hda]
        | false => exact absurd hda hdata
    rw [if_pos hsup]
    simp [hsup', hact']
  · rw [if_neg hsup]
    omega

theorem count_after_result (r : Except AdminSvcError (List Admin)) (l : List Admin)
    (hok : ∀ l', r = .ok l' → 1 ≤ activeSuperuserCount l')
    (hl : 1 ≤ activeSuperuserCount l) :
    1 ≤ activeSuperuserCount (exceptStateOr r l) := by
  cases r with
  | ok l' => exact hok l' rfl
  | error e => exact hl

theorem update_admin_preserves_superuser (l : List Admin) (i : Nat)
    (data : AdminUpdate) (cur nowS : Nat)
    (hdata : data.is_active ≠ some false)
    (hpos : 1 ≤ activeSuperuserCount l) :
    1 ≤ activeSuperuserCount (applyAdminOp l (.update i data cur nowS)) := by
  show 1 ≤ activeSuperuserCount (exceptStateOr (update_admin l i data cur nowS) l)
  refine count_after_result _ _ ?_ hpos
  intro l' hok
  unfold update_admin at hok
  split at hok
  · exact Except.noConfusion hok
  · rename_i a hfind
    split at hok
    · rename_i hguard
      split at hok
      · exact Except.noConfusion hok
      · rename_i hcount
        have hl' : l' = replaceFirstAdminById l i (applyAdminUpdate a data nowS) :=
          (Except.ok.inj hok).symm
        subst hl'
        have hc := replaceFirstAdminById_count l i a (applyAdminUpdate a data nowS) hfind
        have hw := superuserWeight_le_one a
        omega
    · rename_i hguard
      have hl' : l' = replaceFirstAdminById l i (applyAdminUpdate a data nowS) :=
        (Except.ok.inj hok).symm
      subst hl'
      have hc := replaceFirstAdminById_count l i a (applyAdminUpdate a data nowS) hfind
      have hww := applyAdminUpdate_weight_ge a data nowS hdata hguard
      omega

theorem delete_admin_preserves_superuser (l : List Admin) (i cur : Nat)
    (hpos : 1 ≤ activeSuperuserCount l) :
    1 ≤ activeSuperuserCount (applyAdminOp l (.delete i cur)) := by
  show 1 ≤ activeSuperuserCount (exceptStateOr (delete_admin l i cur) l)
  refine count_after_result _ _ ?_ hpos
  intro l' hok
  unfold delete_admin at hok
  split at hok
  · exact Except.noConfusion hok
  · rename_i a hfind
    split at hok
    · exact Except.noConfusion hok
    · split at hok
      · rename_i hsup
        split at hok
        · exact Except.noConfusion hok
        · rename_i hcount
          have hl' : l' = removeFirstAdminById l i := (Except.ok.inj hok).symm
          subst hl'
          have hc := removeFirstAdminById_count l i a hfind
          have hw := superuserWeight_le_one a
          omega
      · rename_i hsup
        have hl' : l' = removeFirstAdminById l i := (Except.ok.inj hok).symm
        subst hl'
        have hc := removeFirstAdminById_count l i a hfind
        have hw0 : superuserWeight a = 0 := by
          simp [superuserWeight, hsup]
        omega

/-- C4 counterexample: the claim says any update that would drop the
active-superuser count to zero is rejected with Conflict.  From a state
whose only admin is an active superuser, an update that merely sets
`is_active` to false is accepted by `update_admin` — the service guards only
the `is_superuser`-demotion path — and leaves zero active superusers. -/
theorem deactivating_sole_superuser_is_accepted :
    activeSuperuserCount [c4SoleSuperuser] = 1 ∧
    update_admin [c4SoleSuperuser] 1 c4Deactivate 1 99 =
      .ok [{ c4SoleSuperuser with is_active := false, updated_at := 99 }] ∧
    activeSuperuserCount [{ c4SoleSuperuser with is_active := false, updated_at := 99 }] = 0 := by
  decide

/-- C4 (amended): starting from at least one active superuser, any sequence
of `update_admin` / `delete_admin` operations whose updates never set
`is_active` to false leaves at least one active superuser: demoting the last
active superuser and deleting the last superuser are rejected with a
Conflict error that leaves the state unchanged.  (An update that deactivates
the last active superuser is not guarded, hence the restriction.) -/
theorem admin_ops_preserve_active_superuser (admins : List Admin)
    (ops : List AdminOp) (hops : ∀ op ∈ ops, opKeepsActivity op)
    (hpos : 1 ≤ activeSuperuserCount admins) :
    1 ≤ activeSuperuserCount (runAdminOps admins ops) := by
  induction ops generalizing admins with
  | nil => simpa [runAdminOps] using hpos
  | cons op rest ih =>
    have hstep : 1 ≤ activeSuperuserCount (applyAdminOp admins op) := by
      cases op with
      | update i data cur nowS =>
        exact update_admin_preserves_superuser admins i data cur nowS
          (hops (.update i data cur nowS) (List.mem_cons_self _ _)) hpos
      | delete i cur =>
        exact delete_admin_preserves_superuser admins i cur hpos
    have hrest : ∀ op ∈ rest, opKeepsActivity op := fun o ho =>
      hops o (List.mem_cons_of_mem _ ho)
    simpa [runAdminOps, List.foldl] using ih (applyAdminOp admins op) hrest hstep

/-- Witness for the amended C4 theorem at a concrete state and operation
sequence: two admins, delete the regular one, then attempt to demote the
last superuser (rejected); one active superuser remains. -/
theorem admin_ops_preserve_active_superuser_witness :
    (∀ op ∈ c4WitnessOps, opKeepsActivity op) ∧
    1 ≤ activeSuperuserCount c4StartAdmins ∧
    1 ≤ activeSuperuserCount (runAdminOps c4StartAdmins c4WitnessOps) :=
  ⟨by decide, by decide,
   admin_ops_preserve_active_superuser c4StartAdmins c4WitnessOps
     (by decide) (by decide)⟩

/-! ## C5 -/

/-- C5: the claim says that for the Monday 09:00–10:00 pattern with
30-minute duration, generating over a 7-day window holding exactly one
future Monday creates and returns exactly the 09:00–09:30 and 09:30–10:00
slots of that Monday.  The committed function instead fails before touching
any data: its first query applies `or_`, which
`app/services/admin_service.py` never imports, so the call raises
`NameError`.  And even with that import slip set aside, the body raises
`TypeError` at the line-351 validity check — a `datetime` ordered against a
`date` — as soon as the loop reaches the window's Monday (day 7, matched by
the loaded pattern), so in no reading is any TimeSlot created. -/
theorem generate_monday_scenario_crashes :
    ((dayLoopStarts 3600 13680).filter
      (fun d => isoweekdayOfMinutes d == 1)).length = 1 ∧
    loadActiveRecurring c5State.recurring 3600 13680 = [c5Pattern] ∧
    generate_time_slots_from_recurring c5State 3600 3600 13680 =
      .error (.nameError "or_") ∧
    generateTimeSlotsBodyResolved c5State 3600 13680 =
      .error (.typeError "cannot compare datetime.datetime to datetime.date") := by
  decide

/-! ## C6 -/

/-- C6 counterexample: the claim says a candidate only partially overlapped
by a `BlockedTimeSlot` is not suppressed, i.e. it is created.  With one
Monday 09:00–10:00 pattern and a block over 08:30–09:30 of the same Monday
(a genuine partial overlap: the block starts before the candidate and ends
strictly inside it), the call creates nothing at all — it fails with the
`NameError` on `or_` before the first query runs. -/
theorem partially_blocked_candidate_not_created :
    c6PartialBlock.start_datetime ≤ 10620 ∧
    c6PartialBlock.end_datetime < 10680 ∧
    10620 < c6PartialBlock.end_datetime ∧
    blockedContains [c6PartialBlock] 10620 10680 = false ∧
    generate_time_slots_from_recurring c6State 3600 3600 13680 =
      .error (.nameError "or_") := by
  decide

theorem dayLoopRun_characterization (patterns : List RecurringTimeSlot)
    (days : List Nat) :
    dayLoopRun patterns days =
      (if days.any (fun d =>
            patterns.any (fun r => r.day_of_week == isoweekdayOfMinutes d))
       then .error (.typeError "cannot compare datetime.datetime to datetime.date")
       else .ok []) := by
  induction days with
  | nil => rfl
  | cons d rest ih =>
    simp only [dayLoopRun, List.any_cons]
    by_cases h : (patterns.any fun r => r.day_of_week == isoweekdayOfMinutes d) = true
    · rw [if_pos h]
      simp [h]
    · rw [if_neg h, ih]
      rw [Bool.not_eq_true] at h
      simp [h]

/-- C6 (amended): `generate_time_slots_from_recurring` never creates two
TimeSlots with an identical (start_time, end_time) pair — vacuously: as
committed it always fails with the `NameError` on `or_` before creating
anything, and even with that import resolved the body fails with the
line-351 `TypeError` (datetime ordered against date) on the first day of
the range matched by any loaded pattern, completing with the empty list
only when no loaded pattern ever matches a day.  The blocking condition it
would apply (lines 387–394) tests exactly full containment — block start ≤
candidate start and candidate end ≤ block end — so a partially overlapping
block would not satisfy it; but no candidate slot is ever generated or
suppressed. -/
theorem generate_never_creates_slots_and_containment_condition :
    (∀ (st : SchedulingState) (nowM startDate endDate : Nat),
      generate_time_slots_from_recurring st nowM startDate endDate =
        .error (.nameError "or_")) ∧
    (∀ (st : SchedulingState) (startDate endDate : Nat),
      generateTimeSlotsBodyResolved st startDate endDate =
        (if (dayLoopStarts startDate endDate).any (fun d =>
              (loadActiveRecurring st.recurring startDate endDate).any
                (fun r => r.day_of_week == isoweekdayOfMinutes d))
         then .error (.typeError "cannot compare datetime.datetime to datetime.date")
         else .ok [])) ∧
    (∀ (blocks : List BlockedTimeSlot) (s e : Nat),
      blockedContains blocks s e = true ↔
        ∃ b ∈ blocks, b.start_datetime ≤ s ∧ e ≤ b.end_datetime) := by
  refine ⟨fun st nowM startDate endDate => rfl, fun st startDate endDate => ?_,
    fun blocks s e => ?_⟩
  · exact dayLoopRun_characterization
      (loadActiveRecurring st.recurring startDate endDate)
      (dayLoopStarts startDate endDate)
  · simp [blockedContains, List.any_eq_true]

/-! ## C7 -/

/-- C7: cancelling a payment that is not pending fails with 409, and
refunding a payment that is not completed fails with 409 — both checks are
raised before any mutation, so the stored rows are untouched (the model
returns an error without producing a new table).  The claim's third part
fails: refunding a completed payment that does carry a provider id never
reaches the commit — after the provider refund succeeds, line 461 of
`payments.py` evaluates `datetime.utcnow()` with `datetime` unimported, the
resulting `NameError` is swallowed by the blanket `except`, and the request
fails with 500, leaving the payment still completed with no
`refunded_at`. -/
theorem payment_status_guards_and_refund_failure
    (payments : List Payment) (pid : Nat) (actor : Actor) (p : Payment)
    (provCancelUpdate : Payment → Except String Payment)
    (providerRefund : String → Option ℚ → Except String Unit)
    (amount : Option ℚ) (nowDT : CalDT)
    (hfind : payments.find? (fun q => q.id == pid) = some p)
    (haccess : actor.is_admin = true ∨ p.user_id = actor.user_id) :
    (p.status ≠ .pending →
      cancel_payment payments pid actor provCancelUpdate =
        .error { status := 409,
                 detail := "Cannot cancel payment with the current status" }) ∧
    (p.status ≠ .completed →
      refund_payment payments pid amount nowDT providerRefund =
        .error { status := 409,
                 detail := "Cannot refund payment with the current status" }) ∧
    (p.status = .completed →
      (p.provider_transaction_id ≠ none ∨ p.provider_payment_id ≠ none) →
      (∀ rid amt, providerRefund rid amt = .ok ()) →
      refund_payment payments pid amount nowDT providerRefund =
        .error { status := 500,
                 detail := "Failed to refund payment: NameError: name datetime is not defined" }) := by
  have hdt : "datetime" ∉ paymentsModuleImportedNames := by decide
  refine ⟨?_, ?_, ?_⟩
  · intro hstat
    have hst : (p.status != PaymentStatus.pending) = true := by
      simpa using hstat
    have hacc : (!actor.is_admin && p.user_id != actor.user_id) = false := by
      rcases haccess with h | h
      · simp [h]
      · simp [h]
    simp [cancel_payment, hfind, hacc, hst]
  · intro hstat
    have hst : (p.status != PaymentStatus.completed) = true := by
      simpa using hstat
    simp [refund_payment, hfind, hst]
  · intro hstat hid hprov
    have hst : (p.status != PaymentStatus.completed) = false := by
      simp [hstat]
    rcases htid : p.provider_transaction_id with _ | tid
    · rcases hpid : p.provider_payment_id with _ | pid2
      · exfalso
        rcases hid with h | h
        · exact h htid
        · exact h hpid
      · simp [refund_payment, hfind, hst, htid, hpid, hprov, hdt]
    · simp [refund_payment, hfind, hst, htid, hprov, hdt]

/-- Witness for the C7 theorem at concrete rows: cancelling the completed
payment gives 409; refunding the pending payment gives 409; refunding the
completed payment (with its transaction id and an always-succeeding
provider) gives the 500 with the `NameError` text. -/
theorem payment_status_guards_and_refund_failure_witness :
    cancel_payment [c7Pending, c7Completed] 2 { user_id := 9, is_admin := true }
      c7ProvCancelUpdate =
      .error { status := 409,
               detail := "Cannot cancel payment with the current status" } ∧
    refund_payment [c7Pending, c7Completed] 1 none c7Now c7ProvRefund =
      .error { status := 409,
               detail := "Cannot refund payment with the current status" } ∧
    refund_payment [c7Pending, c7Completed] 2 none c7Now c7ProvRefund =
      .error { status := 500,
               detail := "Failed to refund payment: NameError: name datetime is not defined" } := by
  have hcompleted := payment_status_guards_and_refund_failure
    [c7Pending, c7Completed] 2 { user_id := 9, is_admin := true } c7Completed
    c7ProvCancelUpdate c7ProvRefund none c7Now (by decide) (Or.inl rfl)
  have hpending := payment_status_guards_and_refund_failure
    [c7Pending, c7Completed] 1 { user_id := 9, is_admin := true } c7Pending
    c7ProvCancelUpdate c7ProvRefund none c7Now (by decide) (Or.inl rfl)
  exact ⟨hcompleted.1 (by decide), hpending.2.1 (by decide),
         hcompleted.2.2 rfl (Or.inl (by decide)) (fun _ _ => rfl)⟩

/-! ## C8 -/

/-- C8: the claim says `GET /appointments/available` needs no
authentication, rejects `end < start` or ranges over 30 days with 400, and
otherwise returns the available slots.  But the route is registered after
`GET /appointments/(appointment_id)`, whose parameter pattern also matches
the path segment `available`, so every such request is dispatched to
`read_appointment` instead: without a bearer token it fails 401, and with a
valid token it fails 500 (the user guard hits the missing `select` import).
The handler's own window checks — the 400s the claim describes — are
correct as written but unreachable through the path. -/
theorem available_route_is_shadowed :
    (matchRoute appointmentsRouterRoutes "GET" ["available"]).map Route.handler =
      some "read_appointment" ∧
    appointmentsGETDispatch c1Users "configured-secret" 1000 ["available"] none =
      .response 401 "Not authenticated" ∧
    appointmentsGETDispatch c1Users "configured-secret" 1000 ["available"]
      (some c1Token) =
      .response 500 "NameError: name select is not defined" ∧
    availableRangeCheck 2000 1000 =
      some { status := 400, detail := "End date must be after start date" } ∧
    availableRangeCheck 0 (31 * 1440 + 720) =
      some { status := 400, detail := "Date range cannot exceed 30 days" } := by
  decide

/-! ## C9 -/

theorem month_window_eq_calendar (now t : CalDT) (hnow : now.wellFormed)
    (ht : t.wellFormed) :
    ((monthStartOf now.midnight).leB t &&
      t.ltB (nextMonthStart (monthStartOf now.midnight))) =
      (t.year == now.year && t.month == now.month) := by
  obtain ⟨ny, nm, nd, nmin⟩ := now
  obtain ⟨ty, tm, td, tmin⟩ := t
  simp only [CalDT.wellFormed] at hnow ht
  obtain ⟨a1, a2, a3⟩ := hnow
  obtain ⟨b1, b2, b3⟩ := ht
  apply Bool.coe_iff_coe.mp
  simp only [CalDT.midnight, monthStartOf, nextMonthStart]
  by_cases h12 : nm < 12
  · rw [if_pos h12]
    simp only [CalDT.leB, CalDT.ltB, Bool.or_eq_true, Bool.and_eq_true,
      decide_eq_true_eq, beq_iff_eq, CalDT.mk.injEq]
    constructor
    · intro h
      omega
    · intro h
      omega
  · rw [if_neg h12]
    simp only [CalDT.leB, CalDT.ltB, Bool.or_eq_true, Bool.and_eq_true,
      decide_eq_true_eq, beq_iff_eq, CalDT.mk.injEq]
    constructor
    · intro h
      omega
    · intro h
      omega

theorem sqlSumAgg_getD (l : List ℚ) : (sqlSumAgg l).getD 0 = l.sum := by
  cases l with
  | nil => rfl
  | cons x xs => rfl

theorem dashboard_filter_eq_spec_filter (payments : List Payment) (now : CalDT)
    (hnow : now.wellFormed)
    (hwf : ∀ p ∈ payments, completedAtWellFormed p) :
    payments.filter (fun p =>
      p.status == PaymentStatus.completed &&
      (match p.completed_at with
       | some t => (monthStartOf now.midnight).leB t &&
                   t.ltB (nextMonthStart (monthStartOf now.midnight))
       | none => false)) = payments.filter (completedInMonthOf now) := by
  apply List.filter_congr
  intro p hp
  have hwfp := hwf p hp
  cases hct : p.completed_at with
  | none => simp [completedInMonthOf, hct]
  | some t =>
    simp only [completedAtWellFormed, hct] at hwfp
    have heq := month_window_eq_calendar now t hnow hwfp
    simp [completedInMonthOf, hct, heq]

/-- C9: the dashboard's `monthly_revenue` equals the sum of amounts of
completed payments whose `completed_at` falls inside the current calendar
month — the `[month_start, next_month)` window with its explicit
December-to-January rollover selects exactly the rows of the current
calendar month — and it is exactly 0 (via `scalar_one() or 0` coercing the
`NULL` sum) when no such payment exists. -/
theorem dashboard_monthly_revenue_matches_spec (payments : List Payment)
    (now : CalDT) (hnow : now.wellFormed)
    (hwf : ∀ p ∈ payments, completedAtWellFormed p) :
    dashboardMonthlyRevenue payments now = specMonthlyRevenue payments now ∧
    (payments.filter (completedInMonthOf now) = [] →
      dashboardMonthlyRevenue payments now = 0) := by
  have hmain : dashboardMonthlyRevenue payments now = specMonthlyRevenue payments now := by
    simp only [dashboardMonthlyRevenue]
    rw [dashboard_filter_eq_spec_filter payments now hnow hwf, sqlSumAgg_getD]
    rfl
  refine ⟨hmain, fun hempty => ?_⟩
  rw [hmain]
  simp [specMonthlyRevenue, hempty]

/-- Witness for the C9 theorem at a concrete table: one completed October
payment and one pending payment, evaluated at an October 2026 instant; the
dashboard figure equals the spec figure. -/
theorem dashboard_monthly_revenue_matches_spec_witness :
    c7Now.wellFormed ∧
    dashboardMonthlyRevenue [c7Pending, c7Completed] c7Now =
      specMonthlyRevenue [c7Pending, c7Completed] c7Now :=
  ⟨by decide,
   (dashboard_monthly_revenue_matches_spec [c7Pending, c7Completed] c7Now
     (by decide) (by decide)).1⟩

/-! ## C10 -/

/-- C10 counterexample: the claim says supplying a valid provider together
with the email of any existing active user yields a token for that user's
account and marks it verified.  With the unverified user `bob@example.com`
(id 2) in the table alongside a user who owns the google identity `sid-1`
(id 1), the call carrying bob's email but that `social_id` resolves — the
social-id lookup runs first — to account 1: the token is issued for id 1,
the state is unchanged, and bob's account stays unverified. -/
theorem social_login_email_user_not_resolved :
    (c10Db.users.find? (fun u => u.email == "bob@example.com" && u.is_active)).map
      User.id = some 2 ∧
    social_login c10Db "configured-secret" 7000 "google" "any-token"
      "bob@example.com" "Bob" "sid-1" =
      .ok ({ access_token :=
               create_access_token "configured-secret" 1 7000 (some (60 * 24 * 8)) 11520,
             token_type := "bearer", user_id := 1, is_admin := false }, c10Db) ∧
    (c10Db.users.find? (fun u => u.id == 2)).map User.is_verified = some false := by
  decide

theorem find_id_replaceFirstUserById (l : List User) (i : Nat) (u3 : User)
    (hid : u3.id = i) (hex : ∃ x ∈ l, x.id = i) :
    (replaceFirstUserById l i u3).find? (fun x => x.id == i) = some u3 := by
  induction l with
  | nil =>
    obtain ⟨x, hx, _⟩ := hex
    exact absurd hx (List.not_mem_nil x)
  | cons a t ih =>
    cases ha : a.id == i with
    | true =>
      simp only [replaceFirstUserById]
      rw [if_pos ha]
      simp [List.find?, hid]
    | false =>
      have ha' : ¬((a.id == i) = true) := by simp [ha]
      simp only [replaceFirstUserById]
      rw [if_neg ha']
      simp only [List.find?, ha]
      obtain ⟨x, hx, hxi⟩ := hex
      rcases List.mem_cons.mp hx with rfl | hxt
      · exact absurd (by simp [hxi]) ha'
      · exact ih ⟨x, hxt, hxi⟩

theorem find_id_of_mem_nodup (l : List User) (u : User)
    (hnodup : (l.map User.id).Nodup) (hmem : u ∈ l) :
    l.find? (fun x => x.id == u.id) = some u := by
  induction l with
  | nil => cases hmem
  | cons a t ih =>
    rw [List.map_cons, List.nodup_cons] at hnodup
    obtain ⟨h1, h2⟩ := hnodup
    rcases List.mem_cons.mp hmem with rfl | hmt
    · simp [List.find?]
    · have hne : (a.id == u.id) = false := by
        have hin : u.id ∈ t.map User.id := List.mem_map_of_mem User.id hmt
        simp only [beq_eq_false_iff_ne, ne_eq]
        intro h
        exact h1 (h ▸ hin)
      simp only [List.find?, hne]
      exact ih h2 hmt

/-- C10 (amended): the outcome of `social_login` is independent of the
`token` argument, and supplying a valid provider together with the email of
an existing active user yields an 8-day access token for that user's account
and leaves the account verified — provided no active user already owns the
supplied `(provider, social_id)` identity; when one does, that social-id
match takes precedence over the email and the token is issued for that
account instead. -/
theorem social_login_token_independent_and_email_resolves :
    (∀ (db : UsersDB) (secret : String) (nowS : Nat)
       (provider t1 t2 email name social_id : String),
       social_login db secret nowS provider t1 email name social_id =
         social_login db secret nowS provider t2 email name social_id) ∧
    (∀ (db : UsersDB) (secret : String) (nowS : Nat)
       (provider token email name social_id : String) (u : User),
       ["google", "facebook", "apple"].contains provider = true →
       (db.users.map User.id).Nodup →
       db.users.find? (fun x =>
         x.social_provider == some provider && x.social_id == some social_id &&
         x.is_active) = none →
       db.users.find? (fun x => x.email == email && x.is_active) = some u →
       ∃ resp db',
         social_login db secret nowS provider token email name social_id =
           .ok (resp, db') ∧
         resp.user_id = u.id ∧ resp.is_admin = false ∧
         resp.access_token =
           create_access_token secret u.id nowS (some (60 * 24 * 8)) 11520 ∧
         (db'.users.find? (fun x => x.id == u.id)).map User.is_verified =
           some true) := by
  constructor
  · intro db secret nowS provider t1 t2 email name social_id
    rfl
  · intro db secret nowS provider token email name social_id u hprov hnodup hsoc hemail
    have hmem : u ∈ db.users := List.mem_of_find?_eq_some hemail
    have hvalid : (!(["google", "facebook", "apple"].contains provider)) = false := by
      rw [hprov]
      rfl
    simp only [social_login, hvalid, Bool.false_eq_true, if_false, hsoc, hemail]
    by_cases hns : (optStrFalsy u.social_id || optStrFalsy u.social_provider) = true
    · simp only [hns, if_true, Bool.true_or]
      by_cases hv : u.is_verified = true
      · simp only [hv, Bool.not_true, Bool.false_eq_true, if_false, if_true]
        refine ⟨_, _, rfl, rfl, rfl, rfl, ?_⟩
        have hfind := find_id_replaceFirstUserById db.users u.id
          ⟨u.id, u.email, u.full_name, u.phone, u.hashed_password, true,
           some provider, some social_id, u.is_active, true, some nowS⟩
          rfl ⟨u, hmem, rfl⟩
        simp [hfind]
      · have hv' : u.is_verified = false := by
          cases h : u.is_verified
          · rfl
          · exact absurd h hv
        simp only [hv', Bool.not_false, if_true, Bool.true_or]
        refine ⟨_, _, rfl, rfl, rfl, rfl, ?_⟩
        have hfind := find_id_replaceFirstUserById db.users u.id
          ⟨u.id, u.email, u.full_name, u.phone, u.hashed_password, true,
           some provider, some social_id, u.is_active, true, some nowS⟩
          rfl ⟨u, hmem, rfl⟩
        simp [hfind]
    · have hns' : (optStrFalsy u.social_id || optStrFalsy u.social_provider) = false := by
        cases h : (optStrFalsy u.social_id || optStrFalsy u.social_provider)
        · rfl
        · exact absurd h hns
      simp only [hns', Bool.false_eq_true, if_false, Bool.false_or]
      by_cases hv : u.is_verified = true
      · simp only [hv, Bool.not_true, Bool.false_eq_true, if_false]
        refine ⟨_, _, rfl, rfl, rfl, rfl, ?_⟩
        rw [find_id_of_mem_nodup db.users u hnodup hmem]
        simp [hv]
      · have hv' : u.is_verified = false := by
          cases h : u.is_verified
          · rfl
          · exact absurd h hv
        simp only [hv', Bool.not_false, if_true]
        refine ⟨_, _, rfl, rfl, rfl, rfl, ?_⟩
        have hfind := find_id_replaceFirstUserById db.users u.id
          ⟨u.id, u.email, u.full_name, u.phone, u.hashed_password,
           u.is_social_login, u.social_provider, u.social_id, u.is_active,
           true, some nowS⟩
          rfl ⟨u, hmem, rfl⟩
        simp [hfind]

/-- Witness for the amended C10 theorem: with only the unverified bob in the
table, a google login with a fresh social id and bob's email issues the
token for account 2 and leaves it verified. -/
theorem social_login_token_independent_witness :
    ∃ resp db',
      social_login { users := [c10UserB], next_id := 3 } "configured-secret" 7000
        "google" "whatever" "bob@example.com" "Bob" "sid-9" =
        .ok (resp, db') ∧
      resp.user_id = c10UserB.id ∧ resp.is_admin = false ∧
      resp.access_token =
        create_access_token "configured-secret" c10UserB.id 7000
          (some (60 * 24 * 8)) 11520 ∧
      (db'.users.find? (fun x => x.id == c10UserB.id)).map User.is_verified =
        some true :=
  social_login_token_independent_and_email_resolves.2
    { users := [c10UserB], next_id := 3 } "configured-secret" 7000
    "google" "whatever" "bob@example.com" "Bob" "sid-9" c10UserB
    (by decide) (by decide) (by decide) (by decide)
